import Mathlib

/-!
Shallow embedding of the Account Security & Payment Reconciliation core of
the StudentsNet backend (src/backend/server.py, src/backend/advanced_security.py).

Time is modelled as a natural number of seconds.  MongoDB collections are
modelled as Lean lists; the per-document update of update_one is modelled by
updating the first matching element, update_many by mapping over the list.
The bcrypt credential check is modelled as string equality of the submitted
password with the stored credential (collision-free hashing); the control
flow of the handlers never depends on anything else about the hash.
-/

namespace StudentsNet

/-- AdvancedSecurityConfig.LOCKOUT_DURATION_MINUTES = 30, in seconds
(server.py line 303 uses timedelta(minutes=30)). -/
def LOCKOUT_DURATION_SECONDS : Nat := 30 * 60

/-- server.py: JWT_EXPIRATION_HOURS = 24. -/
def JWT_EXPIRATION_HOURS : Nat := 24

/-- server.py: JWT_REMEMBER_ME_DAYS = 30. -/
def JWT_REMEMBER_ME_DAYS : Nat := 30

/-- server.py: MEMBERSHIP_FEE = 299.00 (whole rupees). -/
def MEMBERSHIP_FEE : Nat := 299

/-- One hour in seconds. -/
def HOUR_SECONDS : Nat := 3600

/-- AdvancedSecurityConfig.MAX_FAILED_REQUESTS_PER_IP = 50. -/
def MAX_FAILED_REQUESTS_PER_IP : Nat := 50

/-- AdvancedSecurityConfig.IP_BLACKLIST_DURATION_HOURS = 24, in seconds. -/
def IP_BLACKLIST_DURATION_SECONDS : Nat := 24 * 3600

/-- The 5 MB upload ceiling of server.py (5 * 1024 * 1024 bytes). -/
def MAX_UPLOAD_BYTES : Nat := 5 * 1024 * 1024

/-- A user document of the users collection, restricted to the fields read or
written by the security and payment handlers (server.py lines 255-273). -/
structure Account where
  id : String
  contact : String
  password_hash : String
  payment_paid : Bool
  payment_status : String
  role : String
  failed_login_attempts : Nat
  last_failed_login : Option Nat
  last_login : Option Nat
deriving Repr, DecidableEq

/-- server.py hash_password: bcrypt modelled as an injective encoding. -/
def hash_password (password : String) : String := password

/-- server.py verify_password: bcrypt.checkpw modelled as equality of the
submitted password with the stored credential. -/
def verify_password (password : String) (hashed : String) : Bool :=
  password == hashed

/-- The decoded JWT payload produced by create_token (server.py line 141):
a validly signed token carrying user_id, absolute expiry and issue time. -/
structure TokenPayload where
  user_id : String
  exp : Nat
  iat : Nat
deriving Repr, DecidableEq

/-- server.py create_token (lines 136-142): expiry is now + 30 days when
remember_me is set, otherwise now + 24 hours. -/
def create_token (user_id : String) (remember_me : Bool) (now : Nat) : TokenPayload :=
  let expiration :=
    if remember_me then now + JWT_REMEMBER_ME_DAYS * 86400
    else now + JWT_EXPIRATION_HOURS * 3600
  { user_id := user_id, exp := expiration, iat := now }

/-- Outcome of server.py verify_token on a validly signed token. -/
inductive TokenResult where
  | ok (user_id : String)
  | expired
deriving Repr, DecidableEq

/-- server.py verify_token (lines 144-160) on a validly signed token: both the
jwt.decode expiry verification and the explicit check at line 151 reject the
token exactly when its expiry lies strictly in the past; otherwise the carried
user_id is returned.  No revocation set is consulted. -/
def verify_token (t : TokenPayload) (now : Nat) : TokenResult :=
  if t.exp < now then .expired else .ok t.user_id

/-- advanced_security.py TokenBlacklist._cleanup_expired (lines 62-69):
drop every entry whose recorded expiry is strictly in the past. -/
def cleanupExpired (now : Nat) (bl : List (TokenPayload × Nat)) :
    List (TokenPayload × Nat) :=
  bl.filter (fun e => !(decide (e.2 < now)))

namespace TokenBlacklist

/-- advanced_security.py TokenBlacklist.add (lines 49-54): record the token
with its expiry (overwriting any previous entry for the same token, as the
dictionary assignment does), then prune expired entries. -/
def add (t : TokenPayload) (expiry : Nat) (now : Nat)
    (bl : List (TokenPayload × Nat)) : List (TokenPayload × Nat) :=
  cleanupExpired now ((t, expiry) :: bl.filter (fun e => !(decide (e.1 = t))))

/-- advanced_security.py TokenBlacklist.is_blacklisted (lines 56-60): prune
expired entries, then test membership; returns the flag and the pruned set. -/
def is_blacklisted (t : TokenPayload) (now : Nat)
    (bl : List (TokenPayload × Nat)) : Bool × List (TokenPayload × Nat) :=
  let bl2 := cleanupExpired now bl
  (bl2.any (fun e => decide (e.1 = t)), bl2)

end TokenBlacklist

/-- Association-list lookup keyed by source address. -/
def lookupIP {α : Type} (ip : String) (l : List (String × α)) : Option α :=
  (l.find? (fun e => e.1 == ip)).map (fun e => e.2)

/-- Association-list assignment keyed by source address (dictionary write). -/
def setIP {α : Type} (ip : String) (v : α) (l : List (String × α)) :
    List (String × α) :=
  (ip, v) :: l.filter (fun e => !(e.1 == ip))

/-- Association-list deletion keyed by source address (del statement). -/
def removeIP {α : Type} (ip : String) (l : List (String × α)) :
    List (String × α) :=
  l.filter (fun e => !(e.1 == ip))

/-- The class state of advanced_security.py IPSecurityMonitor:
_failed_attempts (per-address timestamp lists) and _blacklisted_ips
(per-address blacklist expiry). -/
structure IPState where
  failed_attempts : List (String × List Nat)
  blacklisted_ips : List (String × Nat)
deriving Repr, DecidableEq

namespace IPSecurityMonitor

/-- advanced_security.py IPSecurityMonitor.record_failed_attempt
(lines 77-91): append the current timestamp, prune entries older than one
hour, and when the pruned count exceeds MAX_FAILED_REQUESTS_PER_IP set the
blacklist expiry for the address to now + 24 hours. -/
def record_failed_attempt (ip : String) (now : Nat) (st : IPState) : IPState :=
  let ts := (lookupIP ip st.failed_attempts).getD []
  let pruned := (ts ++ [now]).filter (fun t => decide (now - t < HOUR_SECONDS))
  let st1 : IPState := { st with failed_attempts := setIP ip pruned st.failed_attempts }
  if MAX_FAILED_REQUESTS_PER_IP < pruned.length then
    { st1 with blacklisted_ips := setIP ip (now + IP_BLACKLIST_DURATION_SECONDS) st1.blacklisted_ips }
  else st1

/-- advanced_security.py IPSecurityMonitor.is_blacklisted (lines 93-101):
true while a stored expiry is strictly in the future; an entry whose expiry
has passed is deleted on lookup.  Returns the flag and the updated state. -/
def is_blacklisted (ip : String) (now : Nat) (st : IPState) : Bool × IPState :=
  match lookupIP ip st.blacklisted_ips with
  | some expiry =>
      if now < expiry then (true, st)
      else (false, { st with blacklisted_ips := removeIP ip st.blacklisted_ips })
  | none => (false, st)

end IPSecurityMonitor

/-- Outcome of the login handler (server.py lines 284-343). -/
inductive LoginResult where
  | invalidCredentials
  | accountLocked
  | success (token : TokenPayload)
deriving Repr, DecidableEq

/-- The password check and its two outcomes (server.py lines 314-343): on a
wrong password increment failed_login_attempts and stamp last_failed_login;
on a correct password reset the counter, stamp last_login and issue a token. -/
def password_step (now : Nat) (u : Account) (password : String)
    (remember : Bool) : LoginResult × Account :=
  if verify_password password u.password_hash then
    (.success (create_token u.id remember now),
     { u with failed_login_attempts := 0, last_login := some now })
  else
    (.invalidCredentials,
     { u with failed_login_attempts := u.failed_login_attempts + 1,
              last_failed_login := some now })

/-- The lockout check followed by the password check (server.py lines
298-343), for a user document found by contact: with 5 or more failed
attempts and a last-failure timestamp, reject while now is strictly before
that timestamp plus 30 minutes, otherwise reset the counter to zero first;
with no last-failure timestamp the password check proceeds directly. -/
def login_checks (now : Nat) (u : Account) (password : String)
    (remember : Bool) : LoginResult × Account :=
  if 5 ≤ u.failed_login_attempts then
    match u.last_failed_login with
    | some last_failed =>
        if now < last_failed + LOCKOUT_DURATION_SECONDS then
          (.accountLocked, u)
        else
          password_step now { u with failed_login_attempts := 0 } password remember
    | none => password_step now u password remember
  else password_step now u password remember

/-- The full login handler (server.py lines 284-343) at the level of the
process state: the handler computes the client address (line 287) but uses it
only for audit logging; it never consults or updates the IPSecurityMonitor
state, which is therefore returned unchanged. -/
def handle_login (client_ip : String) (ipSt : IPState) (now : Nat)
    (userOpt : Option Account) (password : String) (remember : Bool) :
    LoginResult × Option Account × IPState :=
  match userOpt with
  | none => (.invalidCredentials, none, ipSt)
  | some u =>
      let r := login_checks now u password remember
      (r.1, some r.2, ipSt)

/-- A document of the payment_transactions collection (server.py lines
510-522), with binary screenshot content elided. -/
structure PaymentTxn where
  id : String
  user_id : String
  transaction_id : String
  amount : Nat
  currency : String
  payment_method : String
  payment_status : String
  purpose : String
  created_at : Nat
  updated_at : Option Nat
deriving Repr, DecidableEq

/-- The durable store: the users and payment_transactions collections. -/
structure DB where
  users : List Account
  payment_transactions : List PaymentTxn
deriving Repr, DecidableEq

/-- Update the first element satisfying p (MongoDB update_one). -/
def updateFirst {α : Type} (p : α → Bool) (f : α → α) : List α → List α
  | [] => []
  | x :: xs => if p x then f x :: xs else x :: updateFirst p f xs

/-- Outcome of the manual-evidence submission handler. -/
inductive SubmitResult where
  | invalidTransactionId
  | invalidFile
  | userNotFound
  | alreadyPaid
  | duplicatePending
  | fileTooLarge
  | submitted (transaction_id : String)
deriving Repr, DecidableEq

/-- server.py submit_upi_payment (lines 466-527), the manual-evidence
channel.  The sanitized transaction identifier is taken as input; the
file-type validation outcome is the parameter file_valid and the screenshot
byte count is screenshot_size; doc_id stands for the generated uuid.  The
checks run in source order: transaction-id length, file validation, user
lookup, the payment_paid guard (line 493), the pending payment_status guard
(line 496), the size ceiling; then one pending transaction is inserted and
the payment_status field of the account is set to pending. -/
def submit_upi_payment (dbSt : DB) (user_id : String) (transaction_id : String)
    (file_valid : Bool) (screenshot_size : Nat) (doc_id : String) (now : Nat) :
    SubmitResult × DB :=
  if transaction_id.length < 8 then (.invalidTransactionId, dbSt)
  else if !file_valid then (.invalidFile, dbSt)
  else
    match dbSt.users.find? (fun u => u.id == user_id) with
    | none => (.userNotFound, dbSt)
    | some u =>
      if u.payment_paid then (.alreadyPaid, dbSt)
      else if u.payment_status == "pending" then (.duplicatePending, dbSt)
      else if MAX_UPLOAD_BYTES < screenshot_size then (.fileTooLarge, dbSt)
      else
        let txn : PaymentTxn :=
          { id := doc_id, user_id := user_id, transaction_id := transaction_id,
            amount := MEMBERSHIP_FEE, currency := "INR", payment_method := "UPI",
            payment_status := "pending", purpose := "annual_membership",
            created_at := now, updated_at := none }
        (.submitted transaction_id,
         { users := updateFirst (fun v => v.id == user_id)
             (fun v => { v with payment_status := "pending" }) dbSt.users,
           payment_transactions := dbSt.payment_transactions ++ [txn] })

/-- The request body of the administrative payment update. -/
structure AdminUserUpdate where
  payment_paid : Option Bool
  payment_status : Option String
deriving Repr, DecidableEq

/-- The field updates of server.py approve_payment (lines 570-576):
payment_paid is written whenever it is not None; payment_status is written
only when it is truthy (present and non-empty). -/
def applyAdminFields (upd : AdminUserUpdate) (u : Account) : Account :=
  let u1 :=
    match upd.payment_paid with
    | some b => { u with payment_paid := b }
    | none => u
  match upd.payment_status with
  | some s => if s == "" then u1 else { u1 with payment_status := s }
  | none => u1

/-- The per-transaction transition of the bulk update at server.py lines
579-582: a pending transaction of the target account becomes paid with
updated_at stamped; every other transaction is unchanged. -/
def markPaidFor (target : String) (now : Nat) (t : PaymentTxn) : PaymentTxn :=
  if t.user_id == target && t.payment_status == "pending" then
    { t with payment_status := "paid", updated_at := some now }
  else t

/-- server.py approve_payment (lines 568-584), the administrative channel:
write the requested fields onto the account document, and when payment_paid
is set truthy (some true) transition every pending transaction of the
account to paid in bulk. -/
def approve_payment (dbSt : DB) (target : String) (upd : AdminUserUpdate)
    (now : Nat) : DB :=
  let db1 : DB :=
    { dbSt with users := updateFirst (fun u => u.id == target) (applyAdminFields upd) dbSt.users }
  if upd.payment_paid == some true then
    { db1 with payment_transactions := db1.payment_transactions.map (markPaidFor target now) }
  else db1

/-- The user document created by registration (server.py lines 256-273),
restricted to the modelled fields. -/
def freshAccount (id : String) (contact : String) (password : String) : Account :=
  { id := id, contact := contact, password_hash := hash_password password,
    payment_paid := false, payment_status := "unpaid", role := "student",
    failed_login_attempts := 0, last_failed_login := none, last_login := none }

/-- A sequence of login attempts against one account, each given by its time
and submitted password; returns the final account document. -/
def loginSeq (r : Bool) (u : Account) : List (Nat × String) → Account
  | [] => u
  | (t, p) :: rest => loginSeq r (login_checks t u p r).2 rest

/-- A failed login attempt on an account below the lockout threshold only
increments the counter and stamps the failure time. -/
theorem login_checks_fail_lt5 (now : Nat) (u : Account) (p : String) (r : Bool)
    (h5 : u.failed_login_attempts < 5)
    (hp : verify_password p u.password_hash = false) :
    login_checks now u p r =
      (.invalidCredentials,
       { u with failed_login_attempts := u.failed_login_attempts + 1,
                last_failed_login := some now }) := by
  have hnot : ¬ 5 ≤ u.failed_login_attempts := by omega
  simp [login_checks, password_step, hnot, hp]

/-- Claim C2: starting from an account with a zero failed-attempt counter,
five consecutive failed login attempts leave the counter at 5 with the fifth
failure time stamped; a sixth attempt strictly within 30 minutes of the fifth
failure is rejected with AccountLocked whatever password it submits; once the
30-minute lockout window has elapsed, the correct password succeeds with the
counter reset to zero, and the counter is reset to zero before the password
check proceeds (a wrong password at that point leaves the counter at 1, not 6). -/
theorem claim_c2_lockout_after_five_failures (a : Account)
    (ha : a.failed_login_attempts = 0)
    (t1 t2 t3 t4 t5 t6 t7 : Nat) (p1 p2 p3 p4 p5 p6 good bad : String) (r : Bool)
    (hp1 : verify_password p1 a.password_hash = false)
    (hp2 : verify_password p2 a.password_hash = false)
    (hp3 : verify_password p3 a.password_hash = false)
    (hp4 : verify_password p4 a.password_hash = false)
    (hp5 : verify_password p5 a.password_hash = false)
    (hbad : verify_password bad a.password_hash = false)
    (hgood : verify_password good a.password_hash = true)
    (hlock : t6 < t5 + LOCKOUT_DURATION_SECONDS)
    (hexp : t5 + LOCKOUT_DURATION_SECONDS ≤ t7) :
    (loginSeq r a [(t1, p1), (t2, p2), (t3, p3), (t4, p4), (t5, p5)]).failed_login_attempts = 5
    ∧ (loginSeq r a [(t1, p1), (t2, p2), (t3, p3), (t4, p4), (t5, p5)]).last_failed_login = some t5
    ∧ (login_checks t6 (loginSeq r a [(t1, p1), (t2, p2), (t3, p3), (t4, p4), (t5, p5)]) p6 r).1
        = .accountLocked
    ∧ (login_checks t7 (loginSeq r a [(t1, p1), (t2, p2), (t3, p3), (t4, p4), (t5, p5)]) good r).1
        = .success (create_token a.id r t7)
    ∧ (login_checks t7 (loginSeq r a [(t1, p1), (t2, p2), (t3, p3), (t4, p4), (t5, p5)]) good r).2.failed_login_attempts
        = 0
    ∧ (login_checks t7 (loginSeq r a [(t1, p1), (t2, p2), (t3, p3), (t4, p4), (t5, p5)]) bad r).2.failed_login_attempts
        = 1 := by
  have e1 : (login_checks t1 a p1 r).2
      = { a with failed_login_attempts := 1, last_failed_login := some t1 } := by
    rw [login_checks_fail_lt5 t1 a p1 r (by omega) hp1, ha]
  have e2 : (login_checks t2 { a with failed_login_attempts := 1, last_failed_login := some t1 } p2 r).2
      = { a with failed_login_attempts := 2, last_failed_login := some t2 } := by
    rw [login_checks_fail_lt5 t2 { a with failed_login_attempts := 1, last_failed_login := some t1 } p2 r (by simp) hp2]
  have e3 : (login_checks t3 { a with failed_login_attempts := 2, last_failed_login := some t2 } p3 r).2
      = { a with failed_login_attempts := 3, last_failed_login := some t3 } := by
    rw [login_checks_fail_lt5 t3 { a with failed_login_attempts := 2, last_failed_login := some t2 } p3 r (by simp) hp3]
  have e4 : (login_checks t4 { a with failed_login_attempts := 3, last_failed_login := some t3 } p4 r).2
      = { a with failed_login_attempts := 4, last_failed_login := some t4 } := by
    rw [login_checks_fail_lt5 t4 { a with failed_login_attempts := 3, last_failed_login := some t3 } p4 r (by simp) hp4]
  have e5 : (login_checks t5 { a with failed_login_attempts := 4, last_failed_login := some t4 } p5 r).2
      = { a with failed_login_attempts := 5, last_failed_login := some t5 } := by
    rw [login_checks_fail_lt5 t5 { a with failed_login_attempts := 4, last_failed_login := some t4 } p5 r (by simp) hp5]
  have ha5 : loginSeq r a [(t1, p1), (t2, p2), (t3, p3), (t4, p4), (t5, p5)]
      = { a with failed_login_attempts := 5, last_failed_login := some t5 } := by
    simp only [loginSeq, e1, e2, e3, e4, e5]
  rw [ha5]
  have hnlt : ¬ t7 < t5 + LOCKOUT_DURATION_SECONDS := by omega
  refine ⟨rfl, rfl, ?_, ?_, ?_, ?_⟩
  · simp [login_checks, hlock]
  · simp [login_checks, hnlt, password_step, hgood]
  · simp [login_checks, hnlt, password_step, hgood]
  · simp [login_checks, hnlt, password_step, hbad]

/-- Witness for claim C2 at a concrete account and concrete times. -/
theorem claim_c2_lockout_after_five_failures_witness :
    (loginSeq false (freshAccount "u1" "c1" "pw12345") [(0, "x"), (1, "x"), (2, "x"), (3, "x"), (4, "x")]).failed_login_attempts = 5
    ∧ (login_checks 10 (loginSeq false (freshAccount "u1" "c1" "pw12345") [(0, "x"), (1, "x"), (2, "x"), (3, "x"), (4, "x")]) "pw12345" false).1
        = .accountLocked
    ∧ (login_checks 1804 (loginSeq false (freshAccount "u1" "c1" "pw12345") [(0, "x"), (1, "x"), (2, "x"), (3, "x"), (4, "x")]) "pw12345" false).1
        = .success (create_token "u1" false 1804) := by
  have h := claim_c2_lockout_after_five_failures (freshAccount "u1" "c1" "pw12345")
    (by decide) 0 1 2 3 4 10 1804 "x" "x" "x" "x" "x" "pw12345" "pw12345" "x" false
    (by decide) (by decide) (by decide) (by decide) (by decide) (by decide) (by decide)
    (by decide) (by decide)
  exact ⟨h.1, h.2.2.1, h.2.2.2.1⟩

/-- Claim C9: a token issued by create_token validates to the carried account
identifier at any time strictly before the selected ttl has elapsed, and
fails as expired at any time strictly after the ttl has elapsed (the ttl is
24 hours, or 30 days with remember_me). -/
theorem claim_c9_token_roundtrip (id : String) (remember : Bool) (now t1 t2 : Nat)
    (h1 : t1 < now + (if remember then JWT_REMEMBER_ME_DAYS * 86400 else JWT_EXPIRATION_HOURS * 3600))
    (h2 : now + (if remember then JWT_REMEMBER_ME_DAYS * 86400 else JWT_EXPIRATION_HOURS * 3600) < t2) :
    verify_token (create_token id remember now) t1 = .ok id
    ∧ verify_token (create_token id remember now) t2 = .expired := by
  cases remember <;>
    simp_all [create_token, verify_token] <;> omega

/-- Witness for claim C9 at a concrete identifier, ttl and times. -/
theorem claim_c9_token_roundtrip_witness :
    verify_token (create_token "alice" false 0) 86399 = .ok "alice"
    ∧ verify_token (create_token "alice" false 0) 86401 = .expired :=
  claim_c9_token_roundtrip "alice" false 0 86399 86401 (by decide) (by decide)

/-- Claim C10: on an account whose failed-attempt count is at least 5 but
which carries no last-failure timestamp, the login is never rejected with
AccountLocked and the counter is not reset first: the password check proceeds
directly on the unchanged account, so a wrong password pushes the counter to
its old value plus one. -/
theorem claim_c10_lockout_needs_timestamp (u : Account) (p : String)
    (now : Nat) (r : Bool)
    (h5 : 5 ≤ u.failed_login_attempts) (hnf : u.last_failed_login = none) :
    login_checks now u p r = password_step now u p r
    ∧ (login_checks now u p r).1 ≠ .accountLocked
    ∧ (verify_password p u.password_hash = false →
        (login_checks now u p r).2.failed_login_attempts = u.failed_login_attempts + 1) := by
  have key : login_checks now u p r = password_step now u p r := by
    simp [login_checks, h5, hnf]
  refine ⟨key, ?_, ?_⟩
  · rw [key]
    unfold password_step
    split <;> simp
  · intro hp
    rw [key]
    simp [password_step, hp]

/-- Witness for claim C10 at a concrete stuck account. -/
theorem claim_c10_lockout_needs_timestamp_witness :
    (login_checks 3 { freshAccount "u2" "c2" "pw12345" with failed_login_attempts := 7 } "bad" false).1
      ≠ LoginResult.accountLocked
    ∧ (login_checks 3 { freshAccount "u2" "c2" "pw12345" with failed_login_attempts := 7 } "bad" false).2.failed_login_attempts
      = 8 := by
  have h := claim_c10_lockout_needs_timestamp
    { freshAccount "u2" "c2" "pw12345" with failed_login_attempts := 7 } "bad" 3 false
    (by decide) (by decide)
  exact ⟨h.2.1, h.2.2 (by decide)⟩

/-- Claim C3 counterexample: a validly signed, unexpired token whose
identifier sits in the non-expired revocation set is nevertheless accepted by
token validation, which returns the account identifier: revoking the token
via TokenBlacklist.add does not make verify_token reject it, because
verify_token (server.py lines 144-160) never consults the blacklist. -/
theorem claim_c3_counterexample :
    (TokenBlacklist.is_blacklisted { user_id := "alice", exp := 1000, iat := 0 } 5
       (TokenBlacklist.add { user_id := "alice", exp := 1000, iat := 0 } 1000 5 [])).1 = true
    ∧ verify_token { user_id := "alice", exp := 1000, iat := 0 } 5
        = .ok "alice" := by
  constructor <;> rfl

/-- Claim C3 amended: immediately after TokenBlacklist.add records a token
whose expiry has not passed, TokenBlacklist.is_blacklisted reports it as
revoked; but token validation does not consult the revocation set, and
returns the carried account identifier for every unexpired token, revoked
or not. -/
theorem claim_c3_blacklist_not_consulted (t : TokenPayload)
    (expiry now now2 : Nat) (bl : List (TokenPayload × Nat))
    (h1 : ¬ expiry < now) (h2 : ¬ t.exp < now2) :
    (TokenBlacklist.is_blacklisted t now (TokenBlacklist.add t expiry now bl)).1 = true
    ∧ verify_token t now2 = .ok t.user_id := by
  constructor
  · simp [TokenBlacklist.is_blacklisted, TokenBlacklist.add, cleanupExpired, h1]
  · simp [verify_token, h2]

/-- Witness for the amended claim C3 at a concrete token and revocation set. -/
theorem claim_c3_blacklist_not_consulted_witness :
    (TokenBlacklist.is_blacklisted { user_id := "bob", exp := 900, iat := 0 } 7
       (TokenBlacklist.add { user_id := "bob", exp := 900, iat := 0 } 900 7 [])).1 = true
    ∧ verify_token { user_id := "bob", exp := 900, iat := 0 } 8 = .ok "bob" :=
  claim_c3_blacklist_not_consulted { user_id := "bob", exp := 900, iat := 0 }
    900 7 8 [] (by decide) (by decide)

/-- Claim C4 counterexample: with the source address blacklisted by the
IP Reputation Monitor, a login attempt from that address is not rejected at
the reputation layer: the password is checked (a correct password even
succeeds), and a wrong password modifies the failed-attempt state of the
account, because the login handler (server.py lines 284-343) never consults
IPSecurityMonitor. -/
theorem claim_c4_counterexample :
    (IPSecurityMonitor.is_blacklisted "9.9.9.9" 5
       { failed_attempts := [], blacklisted_ips := [("9.9.9.9", 100)] }).1 = true
    ∧ handle_login "9.9.9.9"
        { failed_attempts := [], blacklisted_ips := [("9.9.9.9", 100)] } 5
        (some (freshAccount "u3" "c3" "pw12345")) "bad" false
      = (.invalidCredentials,
         some { freshAccount "u3" "c3" "pw12345" with
                  failed_login_attempts := 1, last_failed_login := some 5 },
         { failed_attempts := [], blacklisted_ips := [("9.9.9.9", 100)] })
    ∧ (handle_login "9.9.9.9"
        { failed_attempts := [], blacklisted_ips := [("9.9.9.9", 100)] } 5
        (some (freshAccount "u3" "c3" "pw12345")) "pw12345" false).1
      = .success (create_token "u3" false 5) := by
  refine ⟨rfl, ?_, rfl⟩
  rfl

/-- Claim C4 amended: the login handler never consults the IP Reputation
Monitor: its outcome and its update of the account are independent of the
source address and of the reputation state, and the reputation state is
returned unchanged — so attempts from blacklisted addresses undergo the
credential guard and the password check exactly like any others. -/
theorem claim_c4_login_ignores_reputation (ip ip2 : String) (st st2 : IPState)
    (now : Nat) (userOpt : Option Account) (password : String) (r : Bool) :
    (handle_login ip st now userOpt password r).1
      = (handle_login ip2 st2 now userOpt password r).1
    ∧ (handle_login ip st now userOpt password r).2.1
      = (handle_login ip2 st2 now userOpt password r).2.1
    ∧ (handle_login ip st now userOpt password r).2.2 = st := by
  cases userOpt <;> simp [handle_login]

/-- Mapping a field that the per-document update leaves unchanged commutes
with updateFirst. -/
theorem map_updateFirst {α β : Type} (p : α → Bool) (f : α → α) (g : α → β)
    (hgf : ∀ x, g (f x) = g x) :
    ∀ l : List α, (updateFirst p f l).map g = l.map g := by
  intro l
  induction l with
  | nil => rfl
  | cons x xs ih =>
    by_cases hx : p x = true
    · simp [updateFirst, hx, hgf]
    · simp [updateFirst, hx, ih]

/-- Looking up by the same predicate after updateFirst returns the updated
document, provided the update preserves the predicate. -/
theorem find_updateFirst {α : Type} (p : α → Bool) (f : α → α)
    (hpf : ∀ x, p x = true → p (f x) = true) :
    ∀ l : List α, List.find? p (updateFirst p f l) = (List.find? p l).map f := by
  intro l
  induction l with
  | nil => rfl
  | cons x xs ih =>
    by_cases hx : p x = true
    · simp [updateFirst, hx, List.find?_cons_of_pos, hpf x hx]
    · simp [updateFirst, hx, List.find?_cons_of_neg, ih]

/-- The administrative field update never changes the account identifier. -/
theorem applyAdminFields_id (upd : AdminUserUpdate) (u : Account) :
    (applyAdminFields upd u).id = u.id := by
  unfold applyAdminFields
  cases upd.payment_paid <;> cases upd.payment_status <;> simp <;> split <;> rfl

/-- After an administrative update carrying payment_paid = true, no
transaction of the target account is left in pending status. -/
theorem approve_paid_all_nonpending (dbSt : DB) (target : String)
    (upd : AdminUserUpdate) (now : Nat) (hp : upd.payment_paid = some true) :
    ((approve_payment dbSt target upd now).payment_transactions.all
      (fun t => !(t.user_id == target && t.payment_status == "pending"))) = true := by
  have htx : (approve_payment dbSt target upd now).payment_transactions
      = dbSt.payment_transactions.map (markPaidFor target now) := by
    simp [approve_payment, hp]
  rw [htx, List.all_eq_true]
  intro t ht
  rcases List.mem_map.mp ht with ⟨s, hs, rfl⟩
  unfold markPaidFor
  by_cases hc : (s.user_id == target && s.payment_status == "pending") = true
  · rw [if_pos hc]
    rw [show (("paid" : String) == "pending") = false from rfl]
    simp
  · rw [if_neg hc]
    show (!(s.user_id == target && s.payment_status == "pending")) = true
    cases hb : (s.user_id == target && s.payment_status == "pending") with
    | true => exact absurd hb hc
    | false => rfl

/-- When the administrative update carries payment_paid = true, the updated
account document has payment_paid set. -/
theorem applyAdminFields_paid (upd : AdminUserUpdate) (u : Account)
    (hp : upd.payment_paid = some true) :
    (applyAdminFields upd u).payment_paid = true := by
  unfold applyAdminFields
  rw [hp]
  cases upd.payment_status <;> simp <;> split <;> rfl

/-- The manual-evidence handler either leaves the store untouched (on any of
its guard failures) or performs exactly its two writes: the pending status on
the account and one appended pending transaction. -/
theorem submit_cases (dbSt : DB) (uid tid docid : String) (fv : Bool)
    (sz now : Nat) :
    (submit_upi_payment dbSt uid tid fv sz docid now).2 = dbSt
    ∨ (submit_upi_payment dbSt uid tid fv sz docid now).2
      = { users := updateFirst (fun v => v.id == uid)
            (fun v => { v with payment_status := "pending" }) dbSt.users,
          payment_transactions := dbSt.payment_transactions ++
            [{ id := docid, user_id := uid, transaction_id := tid,
               amount := MEMBERSHIP_FEE, currency := "INR", payment_method := "UPI",
               payment_status := "pending", purpose := "annual_membership",
               created_at := now, updated_at := none }] } := by
  unfold submit_upi_payment
  repeat' split
  all_goals first
    | exact Or.inl rfl
    | exact Or.inr rfl

/-- Claim C1 counterexample: starting from a freshly registered account with
no transactions, a single administrative payment update sets the payment
state of the account to paid directly, leaving the transaction store empty —
a paid account none of whose PaymentTransactions is paid, and a channel
handler writing payment state directly. -/
theorem claim_c1_counterexample :
    ((approve_payment
        { users := [freshAccount "alice" "c100" "pw12345"], payment_transactions := [] }
        "alice" { payment_paid := some true, payment_status := some "paid" } 0).users.map
      (fun u => (u.payment_paid, u.payment_status))) = [(true, "paid")]
    ∧ (approve_payment
        { users := [freshAccount "alice" "c100" "pw12345"], payment_transactions := [] }
        "alice" { payment_paid := some true, payment_status := some "paid" } 0).payment_transactions
      = [] := by
  exact ⟨rfl, rfl⟩

/-- Claim C1 amended: the account payment state is written directly by the
channel handlers, and the if-and-only-if fails (an administrative update can
mark an account paid with no paid transaction).  What the code does
guarantee: the manual-evidence channel never touches payment_paid and only
ever appends a transaction in pending status, and whenever the
administrative update sets payment_paid = true, no pending transaction of
that account remains. -/
theorem claim_c1_paid_flag_only_via_admin (dbSt : DB)
    (uid tid docid target : String) (fv : Bool) (sz now now2 : Nat)
    (upd : AdminUserUpdate) :
    ((submit_upi_payment dbSt uid tid fv sz docid now).2.users.map Account.payment_paid
       = dbSt.users.map Account.payment_paid)
    ∧ ((submit_upi_payment dbSt uid tid fv sz docid now).2.payment_transactions.map PaymentTxn.payment_status
         = dbSt.payment_transactions.map PaymentTxn.payment_status
       ∨ (submit_upi_payment dbSt uid tid fv sz docid now).2.payment_transactions.map PaymentTxn.payment_status
         = dbSt.payment_transactions.map PaymentTxn.payment_status ++ ["pending"])
    ∧ (upd.payment_paid = some true →
        ((approve_payment dbSt target upd now2).payment_transactions.all
          (fun t => !(t.user_id == target && t.payment_status == "pending"))) = true) := by
  refine ⟨?_, ?_, ?_⟩
  · rcases submit_cases dbSt uid tid docid fv sz now with h | h
    · rw [h]
    · rw [h]
      exact map_updateFirst (fun v => v.id == uid)
        (fun v => { v with payment_status := "pending" })
        Account.payment_paid (fun x => rfl) dbSt.users
  · rcases submit_cases dbSt uid tid docid fv sz now with h | h
    · rw [h]
      exact Or.inl rfl
    · rw [h]
      right
      simp
  · intro hp
    exact approve_paid_all_nonpending dbSt target upd now2 hp

/-- Witness for the amended claim C1 at a concrete store and update. -/
theorem claim_c1_paid_flag_only_via_admin_witness :
    ((submit_upi_payment
        { users := [freshAccount "ann" "c101" "pw12345"], payment_transactions := [] }
        "ann" "TXN123456" true 100 "d100" 0).2.users.map Account.payment_paid
      = [false])
    ∧ ((approve_payment
          { users := [freshAccount "ann" "c101" "pw12345"], payment_transactions := [] }
          "ann" { payment_paid := some true, payment_status := none } 0).payment_transactions.all
        (fun t => !(t.user_id == "ann" && t.payment_status == "pending"))) = true := by
  have h := claim_c1_paid_flag_only_via_admin
    { users := [freshAccount "ann" "c101" "pw12345"], payment_transactions := [] }
    "ann" "TXN123456" "d100" "ann" true 100 0 0
    { payment_paid := some true, payment_status := none }
  exact ⟨h.1, h.2.2 rfl⟩

/-- Claim C5 counterexample: an account whose payment_status field is paid
while its payment_paid flag is false — reachable by a single administrative
update of payment_status on a fresh account — does not make the manual
submission fail with AlreadyPaid: the handler guards on payment_paid
(server.py line 493), so the submission succeeds and a new transaction
document is created. -/
theorem claim_c5_counterexample :
    ((approve_payment
        { users := [freshAccount "alice" "c102" "pw12345"], payment_transactions := [] }
        "alice" { payment_paid := none, payment_status := some "paid" } 0).users.map
      (fun u => (u.payment_paid, u.payment_status))) = [(false, "paid")]
    ∧ (submit_upi_payment
        (approve_payment
          { users := [freshAccount "alice" "c102" "pw12345"], payment_transactions := [] }
          "alice" { payment_paid := none, payment_status := some "paid" } 0)
        "alice" "TXN123456" true 100 "d1" 1).1 = .submitted "TXN123456"
    ∧ (submit_upi_payment
        (approve_payment
          { users := [freshAccount "alice" "c102" "pw12345"], payment_transactions := [] }
          "alice" { payment_paid := none, payment_status := some "paid" } 0)
        "alice" "TXN123456" true 100 "d1" 1).2.payment_transactions.map
          PaymentTxn.payment_status = ["pending"] := by
  exact ⟨rfl, rfl, rfl⟩

/-- Claim C5 amended: for every account whose payment_paid flag is true, a
manual-evidence submission that passes input validation fails with
AlreadyPaid and leaves the store unchanged (the guard is the payment_paid
flag, not the payment_status field). -/
theorem claim_c5_already_paid_guard (dbSt : DB) (uid tid docid : String)
    (fv : Bool) (sz now : Nat) (u : Account)
    (hfind : dbSt.users.find? (fun x => x.id == uid) = some u)
    (hpaid : u.payment_paid = true)
    (htid : ¬ tid.length < 8) (hf : fv = true) :
    submit_upi_payment dbSt uid tid fv sz docid now = (.alreadyPaid, dbSt) := by
  subst hf
  simp [submit_upi_payment, htid, hfind, hpaid]

/-- Witness for the amended claim C5 at a concrete paid account. -/
theorem claim_c5_already_paid_guard_witness :
    submit_upi_payment
      { users := [{ freshAccount "bob" "c103" "pw12345" with payment_paid := true }],
        payment_transactions := [] }
      "bob" "TXN123456" true 100 "d1" 1
    = (.alreadyPaid,
       { users := [{ freshAccount "bob" "c103" "pw12345" with payment_paid := true }],
         payment_transactions := [] }) :=
  claim_c5_already_paid_guard _ "bob" "TXN123456" "d1" true 100 1
    { freshAccount "bob" "c103" "pw12345" with payment_paid := true }
    (by decide) (by decide) (by decide) rfl

/-- Claim C6 counterexample: after a manual submission (one pending
transaction) and an administrative reset of the payment_status field of the
account back to unpaid — which does not touch the transaction store — a
second manual submission succeeds even though a pending transaction for the
account still exists, leaving two pending transactions for one account. -/
theorem claim_c6_counterexample :
    ((approve_payment
        (submit_upi_payment
          { users := [freshAccount "alice" "c104" "pw12345"], payment_transactions := [] }
          "alice" "TXN111111" true 100 "d1" 0).2
        "alice" { payment_paid := none, payment_status := some "unpaid" } 1).payment_transactions.map
      (fun t => (t.user_id, t.payment_status))) = [("alice", "pending")]
    ∧ (submit_upi_payment
        (approve_payment
          (submit_upi_payment
            { users := [freshAccount "alice" "c104" "pw12345"], payment_transactions := [] }
            "alice" "TXN111111" true 100 "d1" 0).2
          "alice" { payment_paid := none, payment_status := some "unpaid" } 1)
        "alice" "TXN222222" true 100 "d2" 2).1 = .submitted "TXN222222"
    ∧ ((submit_upi_payment
        (approve_payment
          (submit_upi_payment
            { users := [freshAccount "alice" "c104" "pw12345"], payment_transactions := [] }
            "alice" "TXN111111" true 100 "d1" 0).2
          "alice" { payment_paid := none, payment_status := some "unpaid" } 1)
        "alice" "TXN222222" true 100 "d2" 2).2.payment_transactions.map
        (fun t => (t.user_id, t.payment_status)))
      = [("alice", "pending"), ("alice", "pending")] := by
  exact ⟨rfl, rfl, rfl⟩

/-- Claim C6 amended: a manual submission while the payment_status field of
the account is pending fails with DuplicatePending and leaves both the
account and the transaction store unchanged; the guard is that account
field (server.py line 496), not the transaction store, so an account can
come to hold more than one pending transaction after an administrative
status reset. -/
theorem claim_c6_duplicate_pending_guard (dbSt : DB) (uid tid docid : String)
    (fv : Bool) (sz now : Nat) (u : Account)
    (hfind : dbSt.users.find? (fun x => x.id == uid) = some u)
    (hnp : u.payment_paid = false)
    (hpend : u.payment_status = "pending")
    (htid : ¬ tid.length < 8) (hf : fv = true) :
    submit_upi_payment dbSt uid tid fv sz docid now = (.duplicatePending, dbSt) := by
  subst hf
  simp [submit_upi_payment, htid, hfind, hnp, hpend]

/-- Witness for the amended claim C6 at a concrete pending account. -/
theorem claim_c6_duplicate_pending_guard_witness :
    submit_upi_payment
      { users := [{ freshAccount "eve" "c105" "pw12345" with payment_status := "pending" }],
        payment_transactions := [] }
      "eve" "TXN123456" true 100 "d1" 1
    = (.duplicatePending,
       { users := [{ freshAccount "eve" "c105" "pw12345" with payment_status := "pending" }],
         payment_transactions := [] }) :=
  claim_c6_duplicate_pending_guard _ "eve" "TXN123456" "d1" true 100 1
    { freshAccount "eve" "c105" "pw12345" with payment_status := "pending" }
    (by decide) (by decide) (by decide) (by decide) rfl

/-- Claim C7: an administrative update that sets payment_paid to true leaves
no pending transaction of the target account — every transaction is either
untouched (it was already in the store and did not match) or now carries
status paid with updated_at stamped to the update time — and a subsequent
manual-evidence submission for that account fails with AlreadyPaid, leaving
the store unchanged. -/
theorem claim_c7_admin_approval_bulk_paid (dbSt : DB)
    (target tid docid : String) (upd : AdminUserUpdate)
    (fv : Bool) (sz now now2 : Nat)
    (hpaid : upd.payment_paid = some true)
    (hmem : (dbSt.users.find? (fun x => x.id == target)).isSome = true)
    (htid : ¬ tid.length < 8) (hf : fv = true) :
    ((approve_payment dbSt target upd now).payment_transactions
       = dbSt.payment_transactions.map (markPaidFor target now))
    ∧ ((approve_payment dbSt target upd now).payment_transactions.all
         (fun t => !(t.user_id == target && t.payment_status == "pending"))) = true
    ∧ ((approve_payment dbSt target upd now).payment_transactions.all
         (fun t => decide (t ∈ dbSt.payment_transactions)
            || (t.payment_status == "paid" && decide (t.updated_at = some now)))) = true
    ∧ submit_upi_payment (approve_payment dbSt target upd now) target tid fv sz docid now2
        = (.alreadyPaid, approve_payment dbSt target upd now) := by
  have htx : (approve_payment dbSt target upd now).payment_transactions
      = dbSt.payment_transactions.map (markPaidFor target now) := by
    simp [approve_payment, hpaid]
  refine ⟨htx, approve_paid_all_nonpending dbSt target upd now hpaid, ?_, ?_⟩
  · rw [htx, List.all_eq_true]
    intro t ht
    rcases List.mem_map.mp ht with ⟨s, hs, rfl⟩
    unfold markPaidFor
    by_cases hc : (s.user_id == target && s.payment_status == "pending") = true
    · rw [if_pos hc]
      simp
    · rw [if_neg hc]
      simp [hs]
  · obtain ⟨u, hu⟩ := Option.isSome_iff_exists.mp hmem
    have hfind2 : (approve_payment dbSt target upd now).users.find? (fun x => x.id == target)
        = some (applyAdminFields upd u) := by
      have hkey := find_updateFirst (fun x => x.id == target) (applyAdminFields upd)
        (fun x hx => by
          show ((applyAdminFields upd x).id == target) = true
          rw [applyAdminFields_id]
          exact hx) dbSt.users
      have husers : (approve_payment dbSt target upd now).users
          = updateFirst (fun x => x.id == target) (applyAdminFields upd) dbSt.users := by
        simp [approve_payment, hpaid]
      rw [husers, hkey, hu]
      rfl
    subst hf
    have hpp := applyAdminFields_paid upd u hpaid
    simp [submit_upi_payment, htid, hfind2, hpp]

/-- Witness for claim C7: one pending transaction of the account becomes paid
with updated_at stamped, and the follow-up manual submission is rejected. -/
theorem claim_c7_admin_approval_bulk_paid_witness :
    ((approve_payment
        { users := [{ freshAccount "ben" "c106" "pw12345" with payment_status := "pending" }],
          payment_transactions :=
            [{ id := "d1", user_id := "ben", transaction_id := "TXN111111",
               amount := MEMBERSHIP_FEE, currency := "INR", payment_method := "UPI",
               payment_status := "pending", purpose := "annual_membership",
               created_at := 0, updated_at := none }] }
        "ben" { payment_paid := some true, payment_status := some "paid" } 5).payment_transactions
      = [{ id := "d1", user_id := "ben", transaction_id := "TXN111111",
           amount := MEMBERSHIP_FEE, currency := "INR", payment_method := "UPI",
           payment_status := "paid", purpose := "annual_membership",
           created_at := 0, updated_at := some 5 }])
    ∧ (submit_upi_payment
        (approve_payment
          { users := [{ freshAccount "ben" "c106" "pw12345" with payment_status := "pending" }],
            payment_transactions :=
              [{ id := "d1", user_id := "ben", transaction_id := "TXN111111",
                 amount := MEMBERSHIP_FEE, currency := "INR", payment_method := "UPI",
                 payment_status := "pending", purpose := "annual_membership",
                 created_at := 0, updated_at := none }] }
          "ben" { payment_paid := some true, payment_status := some "paid" } 5)
        "ben" "TXN222222" true 100 "d2" 6).1 = .alreadyPaid := by
  have h := claim_c7_admin_approval_bulk_paid
    { users := [{ freshAccount "ben" "c106" "pw12345" with payment_status := "pending" }],
      payment_transactions :=
        [{ id := "d1", user_id := "ben", transaction_id := "TXN111111",
           amount := MEMBERSHIP_FEE, currency := "INR", payment_method := "UPI",
           payment_status := "pending", purpose := "annual_membership",
           created_at := 0, updated_at := none }] }
    "ben" "TXN222222" "d2" { payment_paid := some true, payment_status := some "paid" }
    true 100 5 6 rfl (by decide) (by decide) rfl
  refine ⟨?_, ?_⟩
  · rw [h.1]
    rfl
  · rw [h.2.2.2]

/-- Looking up an address right after assigning it finds the new value. -/
theorem lookupIP_setIP {α : Type} (ip : String) (v : α) (l : List (String × α)) :
    lookupIP ip (setIP ip v l) = some v := by
  simp [lookupIP, setIP]

/-- Looking up an address after deleting it finds nothing. -/
theorem lookupIP_removeIP {α : Type} (ip : String) (l : List (String × α)) :
    lookupIP ip (removeIP ip l) = none := by
  unfold lookupIP removeIP
  have hnone : List.find? (fun e => e.1 == ip)
      (List.filter (fun e => !(e.1 == ip)) l) = none := by
    apply List.find?_eq_none.mpr
    intro x hx
    rcases List.mem_filter.mp hx with ⟨h1, h2⟩
    simpa using h2
  rw [hnone]
  rfl

/-- Claim C8: when a recorded failed attempt is the 51st within the rolling
one-hour window of an address, the blacklist expiry of that address is set to
that moment plus 24 hours; thereafter isBlacklisted reports exactly the times
strictly before that expiry, and a lookup at or past the expiry deletes the
entry (lazy clearing). -/
theorem claim_c8_blacklist_on_51st_failure (ip : String) (now t : Nat)
    (st : IPState)
    (h51 : ((((lookupIP ip st.failed_attempts).getD []) ++ [now]).filter
        (fun x => decide (now - x < HOUR_SECONDS))).length = 51) :
    ((IPSecurityMonitor.is_blacklisted ip t
        (IPSecurityMonitor.record_failed_attempt ip now st)).1
      = decide (t < now + IP_BLACKLIST_DURATION_SECONDS))
    ∧ (now + IP_BLACKLIST_DURATION_SECONDS ≤ t →
        lookupIP ip ((IPSecurityMonitor.is_blacklisted ip t
          (IPSecurityMonitor.record_failed_attempt ip now st)).2).blacklisted_ips = none) := by
  have hrec : IPSecurityMonitor.record_failed_attempt ip now st
      = { failed_attempts :=
            setIP ip ((((lookupIP ip st.failed_attempts).getD []) ++ [now]).filter
              (fun x => decide (now - x < HOUR_SECONDS))) st.failed_attempts,
          blacklisted_ips := setIP ip (now + IP_BLACKLIST_DURATION_SECONDS) st.blacklisted_ips } := by
    unfold IPSecurityMonitor.record_failed_attempt
    rw [if_pos]
    rw [h51]
    decide
  rw [hrec]
  have hlook : lookupIP ip (setIP ip (now + IP_BLACKLIST_DURATION_SECONDS) st.blacklisted_ips)
      = some (now + IP_BLACKLIST_DURATION_SECONDS) := lookupIP_setIP ip _ st.blacklisted_ips
  constructor
  · by_cases ht : t < now + IP_BLACKLIST_DURATION_SECONDS
    · simp [IPSecurityMonitor.is_blacklisted, hlook, ht]
    · simp [IPSecurityMonitor.is_blacklisted, hlook, ht]
  · intro hle
    have ht : ¬ t < now + IP_BLACKLIST_DURATION_SECONDS := by omega
    simp only [IPSecurityMonitor.is_blacklisted, hlook, ht, if_neg, ite_false]
    exact lookupIP_removeIP ip _

/-- Witness for claim C8: an address with 50 recent failures gets its 51st,
and the blacklist entry is present during the following 24 hours and lazily
cleared at its expiry. -/
theorem claim_c8_blacklist_on_51st_failure_witness :
    ((IPSecurityMonitor.is_blacklisted "9.9.9.9" 86420
        (IPSecurityMonitor.record_failed_attempt "9.9.9.9" 20
          { failed_attempts := [("9.9.9.9", List.replicate 50 10)],
            blacklisted_ips := [] })).1 = false)
    ∧ lookupIP "9.9.9.9" ((IPSecurityMonitor.is_blacklisted "9.9.9.9" 86420
        (IPSecurityMonitor.record_failed_attempt "9.9.9.9" 20
          { failed_attempts := [("9.9.9.9", List.replicate 50 10)],
            blacklisted_ips := [] })).2).blacklisted_ips = none := by
  have h := claim_c8_blacklist_on_51st_failure "9.9.9.9" 20 86420
    { failed_attempts := [("9.9.9.9", List.replicate 50 10)], blacklisted_ips := [] }
    (by decide)
  refine ⟨?_, h.2 (by decide)⟩
  rw [h.1]
  decide

end StudentsNet
